import Mathlib

/-!
Shallow embedding of `argopy/fetchers.py`: the `ArgoDataFetcher` and
`ArgoIndexFetcher` facades.  Backend fetcher objects, datasets, frames and
figures are external collaborators; they are modelled as free terms that
record exactly which constructor/method was invoked and with which
arguments, so that dispatch, option plumbing and post-processing order are
faithfully captured.
-/

namespace Argopy

/-- A value of the process-wide `OPTIONS` dictionary, restricted to the keys
read by `fetchers.py` ('mode', 'src', 'dataset'). -/
structure Options where
  mode : String
  src : String
  dataset : String
deriving DecidableEq, Repr

/-- A backend module as registered in `AVAILABLE_SOURCES`: it exposes
`access_points` (capability tags) and `dataset_ids` (ordered, first is the
default); its four constructors are identified by `CtorKind` below. -/
structure BackendModule where
  access_points : List String
  dataset_ids : List String
deriving DecidableEq, Repr

/-- Identity of a backend constructor (`Fetch_wmo`, `Fetch_box`,
`IndexFetcher_wmo`, `IndexFetcher_box`). -/
inductive CtorKind where
  | fetch_wmo : CtorKind
  | fetch_box : CtorKind
  | index_wmo : CtorKind
  | index_box : CtorKind
deriving DecidableEq, Repr

/-- A constructed backend fetcher instance: which constructor was called and
with which arguments (keyword arguments `WMO=`, `CYC=`, `box=` plus the
facade's stored `fetcher_options`). -/
structure FetcherInstance where
  kind : CtorKind
  WMO : Option String
  CYC : Option String
  box : Option String
  options : List (String × String)
deriving DecidableEq, Repr

/-- The facade's post-processor slot: either the bound `__empty_processor`
or the `postprocessing` closure installed by `float`/`profile`/`region`. -/
inductive PostProc where
  | empty_processor : PostProc
  | postprocessing : PostProc
deriving DecidableEq, Repr

/-- An `xarray.Dataset` as a free term recording how it was produced:
`raw f kwargs` is `f.to_xarray(**kwargs)`; the other constructors record the
backend filter methods applied to it. -/
inductive XDS where
  | raw : FetcherInstance → List (String × String) → XDS
  | filter_data_mode : FetcherInstance → XDS → XDS
  | filter_qc : FetcherInstance → XDS → XDS
  | filter_variables : FetcherInstance → String → XDS → XDS
deriving DecidableEq, Repr

/-- A `pandas.DataFrame` as a free term: `of_xarray x` is `x.to_dataframe()`,
`index_frame f kwargs` is an index fetcher's `f.to_dataframe(**kwargs)`, and
`sort_values cols d` is `d.sort_values(cols)`. -/
inductive DFrame where
  | of_xarray : XDS → DFrame
  | index_frame : FetcherInstance → List (String × String) → DFrame
  | sort_values : List String → DFrame → DFrame
deriving DecidableEq, Repr

/-- A figure handle as a free term recording which plot collaborator
produced it and from which frame. -/
inductive Figure where
  | plot_dac : DFrame → Figure
  | plot_profilerType : DFrame → Figure
  | plot_trajectory : DFrame → Figure
deriving DecidableEq, Repr

/-- Result of `df.to_csv(file)`. -/
inductive CsvOut where
  | to_csv : DFrame → String → CsvOut
deriving DecidableEq, Repr

/-- The Python exceptions raised by this module. -/
inductive PyError where
  | valueError : String → PyError
  | typeError : String → PyError
  | invalidFetcherAccessPoint : String → PyError
  | invalidFetcher : String → PyError
  | indexError : String → PyError
deriving DecidableEq, Repr

/-- Outcome of a Python method on a mutable object: `ret st` means the
method returned `self`, whose state is now `st`; `raised e st` means it
raised exception `e`, leaving the object in state `st`. -/
inductive MethodResult (σ : Type) where
  | ret : σ → MethodResult σ
  | raised : PyError → σ → MethodResult σ
deriving DecidableEq, Repr

/-- Keys of an insertion-ordered dictionary (Python `dict.keys()`). -/
def dictKeys {α : Type} (d : List (String × α)) : List String :=
  d.map Prod.fst

/-- Python `d[k]` / `d.get(k)` on an insertion-ordered dictionary. -/
def dictGet {α : Type} (d : List (String × α)) (k : String) : Option α :=
  match d with
  | [] => none
  | (k1, v) :: rest => if k1 = k then some v else dictGet rest k

/-- `d[k] = v` on an insertion-ordered dictionary: overwrite in place if the
key exists, else append. -/
def dictInsert {α : Type} (d : List (String × α)) (k : String) (v : α) :
    List (String × α) :=
  if (dictKeys d).contains k then
    d.map (fun p => if p.1 = k then (k, v) else p)
  else d ++ [(k, v)]

/-- Python `{**a, **b}`. -/
def dictMerge {α : Type} (a b : List (String × α)) : List (String × α) :=
  b.foldl (fun d kv => dictInsert d kv.1 kv.2) a

/-- Modelled from the spec: the mode validator installed by `argopy.options`
(a module not under src/); "mode ∈ {expert-like default, "standard"}". -/
def validate_mode (m : String) : Bool :=
  m = "standard" || m = "expert"

/-- Modelled from the spec: the dataset validator from `argopy.options`
(not under src/); "dataset ∈ {"phy","bgc","ref"}"; a Python `None` (here
`Option.none`) is not in that enumeration. -/
def validate_dataset : Option String → Bool
  | some s => s = "phy" || s = "bgc" || s = "ref"
  | none => false

/-- Modelled from the spec: the source validator from `argopy.options`
(not under src/); "source ∈ {registered backend names}". -/
def validate_src (sources : List (String × BackendModule)) (s : String) : Bool :=
  (dictKeys sources).contains s

/-- One iteration of the `__init__` loop of `ArgoDataFetcher` building
`self.Fetchers` from the backend's `access_points`. -/
def dataFetchersStep (d : List (String × CtorKind)) (p : String) :
    List (String × CtorKind) :=
  let d1 := if p = "wmo" then
      dictInsert (dictInsert d "profile" CtorKind.fetch_wmo) "float" CtorKind.fetch_wmo
    else d
  if p = "box" then dictInsert d1 "region" CtorKind.fetch_box else d1

/-- The `__init__` loop of `ArgoDataFetcher` building `self.Fetchers`. -/
def buildDataFetchers (aps : List String) : List (String × CtorKind) :=
  aps.foldl dataFetchersStep []

/-- One iteration of the `__init__` loop of `ArgoIndexFetcher`. -/
def indexFetchersStep (d : List (String × CtorKind)) (p : String) :
    List (String × CtorKind) :=
  let d1 := if p = "wmo" then dictInsert d "float" CtorKind.index_wmo else d
  if p = "box" then dictInsert d1 "region" CtorKind.index_box else d1

/-- The `__init__` loop of `ArgoIndexFetcher` building `self.Fetchers`. -/
def buildIndexFetchers (aps : List String) : List (String × CtorKind) :=
  aps.foldl indexFetchersStep []

/-- State of an `ArgoDataFetcher` object after `__init__`. -/
structure ArgoDataFetcherState where
  _mode : String
  _dataset_id : Option String
  _src : String
  valid_access_points : List String
  Fetchers : List (String × CtorKind)
  fetcher : Option FetcherInstance
  fetcher_options : List (String × String)
  postproccessor : PostProc
deriving DecidableEq, Repr

/-- `ArgoDataFetcher.__init__`.  `OPTIONS` and `AVAILABLE_SOURCES` come from
modules outside src/ and are passed in explicitly; `ds = none` models a
caller passing Python `None`, `ds = some ""` the unset default `""`. -/
def ArgoDataFetcher.init (OPTIONS : Options) (sources : List (String × BackendModule))
    (mode src : String) (ds : Option String)
    (fetcher_kwargs : List (String × String)) :
    Except PyError ArgoDataFetcherState :=
  let m := if mode = "" then OPTIONS.mode else mode
  let dsid := if ds = some "" then some OPTIONS.dataset else ds
  let sc := if src = "" then OPTIONS.src else src
  if validate_mode m = false then
    .error (.valueError "invalid option value for mode")
  else if validate_src sources sc = false then
    .error (.valueError "invalid option value for src")
  else if validate_dataset dsid = false then
    .error (.valueError "invalid option value for dataset")
  else
    match dictGet sources sc with
    | none => .error (.valueError ("Data fetcher '" ++ sc ++ "' not available"))
    | some F =>
      let dsRes : Except PyError String :=
        match ds with
        | none =>
          match F.dataset_ids with
          | [] => .error (.indexError "list index out of range")
          | d0 :: _ => .ok d0
        | some s => .ok s
      match dsRes with
      | .error e => .error e
      | .ok dsv =>
        .ok { _mode := m, _dataset_id := dsid, _src := sc,
              valid_access_points := ["profile", "float", "region"],
              Fetchers := buildDataFetchers F.access_points,
              fetcher := none,
              fetcher_options := dictMerge [("ds", dsv)] fetcher_kwargs,
              postproccessor := PostProc.empty_processor }

/-- `"CYC" in kw or "cyc" in kw`. -/
def cyc_in_kw (kw : List (String × String)) : Bool :=
  (dictKeys kw).contains "CYC" || (dictKeys kw).contains "cyc"

/-- `ArgoDataFetcher.float`. -/
def ArgoDataFetcher.float (s : ArgoDataFetcherState) (wmo : String)
    (kw : List (String × String)) : MethodResult ArgoDataFetcherState :=
  if cyc_in_kw kw then
    .raised (.typeError "float() got an unexpected keyword argument 'cyc'. Use 'profile' access point to fetch specific profile data.") s
  else
    match dictGet s.Fetchers "float" with
    | some k =>
      let s1 := { s with fetcher := some { kind := k, WMO := some wmo, CYC := none,
                                           box := none, options := s.fetcher_options } }
      let s2 := if s1._mode = "standard" ∧ s1._dataset_id ≠ some "ref" then
          { s1 with postproccessor := PostProc.postprocessing }
        else s1
      .ret s2
    | none =>
      .raised (.invalidFetcherAccessPoint ("'float' not available with '" ++ s._src ++ "' src")) s

/-- `ArgoDataFetcher.profile`. -/
def ArgoDataFetcher.profile (s : ArgoDataFetcherState) (wmo cyc : String) :
    MethodResult ArgoDataFetcherState :=
  match dictGet s.Fetchers "profile" with
  | some k =>
    let s1 := { s with fetcher := some { kind := k, WMO := some wmo, CYC := some cyc,
                                         box := none, options := s.fetcher_options } }
    let s2 := if s1._mode = "standard" ∧ s1._dataset_id ≠ some "ref" then
        { s1 with postproccessor := PostProc.postprocessing }
      else s1
    .ret s2
  | none =>
    .raised (.invalidFetcherAccessPoint ("'profile' not available with '" ++ s._src ++ "' src")) s

/-- `ArgoDataFetcher.region`. -/
def ArgoDataFetcher.region (s : ArgoDataFetcherState) (box_ : String) :
    MethodResult ArgoDataFetcherState :=
  match dictGet s.Fetchers "region" with
  | some k =>
    let s1 := { s with fetcher := some { kind := k, WMO := none, CYC := none,
                                         box := some box_, options := s.fetcher_options } }
    let s2 := if s1._mode = "standard" ∧ s1._dataset_id ≠ some "ref" then
        { s1 with postproccessor := PostProc.postprocessing }
      else s1
    .ret s2
  | none =>
    .raised (.invalidFetcherAccessPoint ("'region' not available with '" ++ s._src ++ "' src")) s

/-- `ArgoDataFetcher.to_xarray`: delegate to the bound fetcher, then apply
the post-processor (which reads `self.fetcher` and `self._mode` at call
time). -/
def ArgoDataFetcher.to_xarray (s : ArgoDataFetcherState)
    (kwargs : List (String × String)) : Except PyError XDS :=
  match s.fetcher with
  | none =>
    .error (.invalidFetcher (" Initialize an access point (" ++
      String.intercalate "," (dictKeys s.Fetchers) ++ ") first."))
  | some f =>
    let xds := XDS.raw f kwargs
    match s.postproccessor with
    | PostProc.empty_processor => .ok xds
    | PostProc.postprocessing =>
      .ok (XDS.filter_variables f s._mode (XDS.filter_qc f (XDS.filter_data_mode f xds)))

/-- `ArgoDataFetcher.to_dataframe`. -/
def ArgoDataFetcher.to_dataframe (s : ArgoDataFetcherState)
    (kwargs : List (String × String)) : Except PyError DFrame :=
  match ArgoDataFetcher.to_xarray s kwargs with
  | .error e => .error e
  | .ok xds => .ok (DFrame.of_xarray xds)

/-- Spec-side definition for the refinement claim on `to_dataframe`:
"retrieval via `to_xarray` then tabular conversion". -/
def ArgoDataFetcher.to_dataframe_spec (s : ArgoDataFetcherState)
    (kwargs : List (String × String)) : Except PyError DFrame :=
  (ArgoDataFetcher.to_xarray s kwargs).map DFrame.of_xarray

/-- The post-processing behaviour of a state `s1` reached from `st` by one
access-point call: the three-step chain (data-mode filter, then quality
filter, then variable filter) is installed and applied by `to_xarray`
exactly when the mode is "standard" and the dataset is not "ref"; in every
other combination the backend's dataset is returned unchanged. -/
def postprocSpec (st s1 : ArgoDataFetcherState) : Prop :=
  ((st._mode = "standard" ∧ st._dataset_id ≠ some "ref") →
    s1.postproccessor = PostProc.postprocessing ∧
    ∀ f kwargs, s1.fetcher = some f →
      ArgoDataFetcher.to_xarray s1 kwargs =
        Except.ok (XDS.filter_variables f s1._mode
          (XDS.filter_qc f (XDS.filter_data_mode f (XDS.raw f kwargs))))) ∧
  (¬ (st._mode = "standard" ∧ st._dataset_id ≠ some "ref") →
    s1.postproccessor = PostProc.empty_processor ∧
    ∀ f kwargs, s1.fetcher = some f →
      ArgoDataFetcher.to_xarray s1 kwargs = Except.ok (XDS.raw f kwargs))

/-- The allow-list of `__getattr__` on both facades. -/
def valid_attrs : List String :=
  ["Fetchers", "fetcher", "fetcher_options", "postproccessor"]

/-- `ArgoDataFetcher.__getattr__`: the fallback Python invokes for attribute
names not otherwise defined on the object; `ok none` is the implicit
`return None`. -/
def ArgoDataFetcher.getattr (s : ArgoDataFetcherState) (key : String) :
    Except PyError (Option Unit) :=
  if ¬ s.valid_access_points.contains key ∧ ¬ valid_attrs.contains key then
    .error (.invalidFetcherAccessPoint ("'" ++ key ++ "' is not a valid access point"))
  else .ok none

/-- State of an `ArgoIndexFetcher` object after `__init__`. -/
structure ArgoIndexFetcherState where
  _mode : String
  _src : String
  valid_access_points : List String
  Fetchers : List (String × CtorKind)
  fetcher : Option FetcherInstance
  fetcher_options : List (String × String)
  postproccessor : PostProc
deriving DecidableEq, Repr

/-- `ArgoIndexFetcher.__init__` (no `ds` argument, no `'ds'` option). -/
def ArgoIndexFetcher.init (OPTIONS : Options) (sources : List (String × BackendModule))
    (mode src : String) (fetcher_kwargs : List (String × String)) :
    Except PyError ArgoIndexFetcherState :=
  let m := if mode = "" then OPTIONS.mode else mode
  let sc := if src = "" then OPTIONS.src else src
  if validate_mode m = false then
    .error (.valueError "invalid option value for mode")
  else if validate_src sources sc = false then
    .error (.valueError "invalid option value for src")
  else
    match dictGet sources sc with
    | none => .error (.valueError ("Fetcher '" ++ sc ++ "' not available"))
    | some F =>
      .ok { _mode := m, _src := sc,
            valid_access_points := ["float", "region"],
            Fetchers := buildIndexFetchers F.access_points,
            fetcher := none,
            fetcher_options := fetcher_kwargs,
            postproccessor := PostProc.empty_processor }

/-- `ArgoIndexFetcher.__getattr__`. -/
def ArgoIndexFetcher.getattr (s : ArgoIndexFetcherState) (key : String) :
    Except PyError (Option Unit) :=
  if ¬ s.valid_access_points.contains key ∧ ¬ valid_attrs.contains key then
    .error (.invalidFetcherAccessPoint ("'" ++ key ++ "' is not a valid access point"))
  else .ok none

/-- `ArgoIndexFetcher.float`. -/
def ArgoIndexFetcher.float (s : ArgoIndexFetcherState) (wmo : String) :
    MethodResult ArgoIndexFetcherState :=
  match dictGet s.Fetchers "float" with
  | some k =>
    .ret { s with fetcher := some { kind := k, WMO := some wmo, CYC := none,
                                    box := none, options := s.fetcher_options } }
  | none =>
    .raised (.invalidFetcherAccessPoint ("'float' not available with '" ++ s._src ++ "' src")) s

/-- `ArgoIndexFetcher.region`. -/
def ArgoIndexFetcher.region (s : ArgoIndexFetcherState) (box_ : String) :
    MethodResult ArgoIndexFetcherState :=
  match dictGet s.Fetchers "region" with
  | some k =>
    .ret { s with fetcher := some { kind := k, WMO := none, CYC := none,
                                    box := some box_, options := s.fetcher_options } }
  | none =>
    .raised (.invalidFetcherAccessPoint ("'region' not available with '" ++ s._src ++ "' src")) s

/-- `ArgoIndexFetcher.to_dataframe`. -/
def ArgoIndexFetcher.to_dataframe (s : ArgoIndexFetcherState)
    (kwargs : List (String × String)) : Except PyError DFrame :=
  match s.fetcher with
  | none =>
    .error (.invalidFetcher (" Initialize an access point (" ++
      String.intercalate "," (dictKeys s.Fetchers) ++ ") first."))
  | some f => .ok (DFrame.index_frame f kwargs)

/-- `ArgoIndexFetcher.to_xarray`. -/
def ArgoIndexFetcher.to_xarray (s : ArgoIndexFetcherState)
    (kwargs : List (String × String)) : Except PyError XDS :=
  match s.fetcher with
  | none =>
    .error (.invalidFetcher (" Initialize an access point (" ++
      String.intercalate "," (dictKeys s.Fetchers) ++ ") first."))
  | some f => .ok (XDS.raw f kwargs)

/-- `ArgoIndexFetcher.to_csv`: checks the binding, then goes through
`self.to_dataframe()` (called with no keyword arguments). -/
def ArgoIndexFetcher.to_csv (s : ArgoIndexFetcherState) (file : String) :
    Except PyError CsvOut :=
  match s.fetcher with
  | none =>
    .error (.invalidFetcher (" Initialize an access point (" ++
      String.intercalate "," (dictKeys s.Fetchers) ++ ") first."))
  | some _ =>
    match ArgoIndexFetcher.to_dataframe s [] with
    | .error e => .error e
    | .ok d => .ok (CsvOut.to_csv d file)

/-- `ArgoIndexFetcher.plot`: fetches the frame first, then dispatches on
`ptype`. -/
def ArgoIndexFetcher.plot (s : ArgoIndexFetcherState) (ptype : String) :
    Except PyError Figure :=
  match ArgoIndexFetcher.to_dataframe s [] with
  | .error e => .error e
  | .ok idx =>
    if ptype = "dac" then .ok (Figure.plot_dac idx)
    else if ptype = "profiler" then .ok (Figure.plot_profilerType idx)
    else if ptype = "trajectory" then
      .ok (Figure.plot_trajectory (DFrame.sort_values ["file"] idx))
    else
      .error (.valueError "Type of plot unavailable. Use: 'dac', 'profiler' or 'trajectory' (default)")

/-! Concrete fixtures used by witnesses and counterexample evaluations. -/

/-- Default process-wide options, as shipped ('expert' mode, 'erddap'
source, 'phy' dataset). -/
def demoOptions : Options :=
  { mode := "expert", src := "erddap", dataset := "phy" }

/-- A backend with both capabilities (like the erddap data source). -/
def erddapModule : BackendModule :=
  { access_points := ["wmo", "box"], dataset_ids := ["phy", "ref"] }

/-- A backend declaring only the 'box' capability. -/
def boxOnlyModule : BackendModule :=
  { access_points := ["box"], dataset_ids := ["phy"] }

/-- A demo registry of available sources. -/
def demoSources : List (String × BackendModule) :=
  [("erddap", erddapModule), ("boxonly", boxOnlyModule)]

/-- `ArgoDataFetcher(mode='standard')` against the demo registry. -/
def demoStdState : ArgoDataFetcherState :=
  { _mode := "standard", _dataset_id := some "phy", _src := "erddap",
    valid_access_points := ["profile", "float", "region"],
    Fetchers := [("profile", CtorKind.fetch_wmo), ("float", CtorKind.fetch_wmo),
                 ("region", CtorKind.fetch_box)],
    fetcher := none, fetcher_options := [("ds", "")],
    postproccessor := PostProc.empty_processor }

/-- The fetcher instance constructed by `demoStdState.float "6902746"`. -/
def demoFetcher : FetcherInstance :=
  { kind := CtorKind.fetch_wmo, WMO := some "6902746", CYC := none, box := none,
    options := [("ds", "")] }

/-- `demoStdState` after a successful `float "6902746"` call. -/
def demoStdBound : ArgoDataFetcherState :=
  { demoStdState with fetcher := some demoFetcher,
                      postproccessor := PostProc.postprocessing }

/-- `ArgoDataFetcher(src='boxonly')`: a data facade over a backend without
the 'wmo' capability. -/
def demoBoxOnlyState : ArgoDataFetcherState :=
  { _mode := "expert", _dataset_id := some "phy", _src := "boxonly",
    valid_access_points := ["profile", "float", "region"],
    Fetchers := [("region", CtorKind.fetch_box)],
    fetcher := none, fetcher_options := [("ds", "")],
    postproccessor := PostProc.empty_processor }

/-- `ArgoIndexFetcher()` against the demo registry. -/
def demoIndexState : ArgoIndexFetcherState :=
  { _mode := "expert", _src := "erddap",
    valid_access_points := ["float", "region"],
    Fetchers := [("float", CtorKind.index_wmo), ("region", CtorKind.index_box)],
    fetcher := none, fetcher_options := [],
    postproccessor := PostProc.empty_processor }

/-- The fetcher instance constructed by `demoIndexState.float "6902746"`. -/
def demoIndexFetcher : FetcherInstance :=
  { kind := CtorKind.index_wmo, WMO := some "6902746", CYC := none, box := none,
    options := [] }

/-- `demoIndexState` after a successful `float "6902746"` call. -/
def demoIndexBound : ArgoIndexFetcherState :=
  { demoIndexState with fetcher := some demoIndexFetcher }

/-- `ArgoIndexFetcher(src='boxonly')`. -/
def demoIndexBoxOnlyState : ArgoIndexFetcherState :=
  { _mode := "expert", _src := "boxonly",
    valid_access_points := ["float", "region"],
    Fetchers := [("region", CtorKind.index_box)],
    fetcher := none, fetcher_options := [],
    postproccessor := PostProc.empty_processor }

/-! Dictionary lemmas. -/

theorem dictGet_overwrite_of_mem {α : Type} (d : List (String × α)) (k : String) (v : α)
    (h : k ∈ dictKeys d) :
    dictGet (d.map (fun p => if p.1 = k then (k, v) else p)) k = some v := by
  induction d with
  | nil => simp [dictKeys] at h
  | cons hd tl ih =>
    obtain ⟨k1, v1⟩ := hd
    by_cases h1 : k1 = k
    · rw [List.map_cons, if_pos h1]
      simp [dictGet]
    · rw [List.map_cons, if_neg h1]
      have h2 : k ∈ dictKeys tl := by
        simp only [dictKeys, List.map_cons, List.mem_cons] at h
        rcases h with h | h
        · exact absurd h.symm h1
        · simpa [dictKeys] using h
      simp only [dictGet]
      rw [if_neg h1]
      exact ih h2

theorem dictGet_overwrite_ne {α : Type} (d : List (String × α)) (k k' : String) (v : α)
    (h : k' ≠ k) :
    dictGet (d.map (fun p => if p.1 = k then (k, v) else p)) k' = dictGet d k' := by
  induction d with
  | nil => simp [dictGet]
  | cons hd tl ih =>
    obtain ⟨k1, v1⟩ := hd
    rw [List.map_cons]
    by_cases hh : k1 = k
    · rw [if_pos hh]
      simp only [dictGet]
      have e1 : ¬ (k = k') := fun e => h e.symm
      have e2 : ¬ (k1 = k') := by rw [hh]; exact e1
      rw [if_neg e1, if_neg e2]
      exact ih
    · rw [if_neg hh]
      simp only [dictGet]
      rw [ih]

theorem dictGet_append_left_none {α : Type} (a b : List (String × α)) (k : String)
    (h : dictGet a k = none) : dictGet (a ++ b) k = dictGet b k := by
  induction a with
  | nil => simp
  | cons hd tl ih =>
    obtain ⟨k1, v1⟩ := hd
    by_cases hh : k1 = k
    · simp [dictGet, hh] at h
    · simp only [dictGet, hh, if_false] at h
      simp only [List.cons_append, dictGet, hh, if_false]
      exact ih h

theorem dictGet_eq_none_of_not_mem {α : Type} (d : List (String × α)) (k : String)
    (h : k ∉ dictKeys d) : dictGet d k = none := by
  induction d with
  | nil => simp [dictGet]
  | cons hd tl ih =>
    obtain ⟨k1, v1⟩ := hd
    simp only [dictKeys, List.map_cons, List.mem_cons, not_or] at h
    simp only [dictGet]
    rw [if_neg (fun e => h.1 e.symm)]
    exact ih (by simpa [dictKeys] using h.2)

theorem dictGet_append_single_ne {α : Type} (d : List (String × α)) (k k' : String) (v : α)
    (h : k' ≠ k) : dictGet (d ++ [(k, v)]) k' = dictGet d k' := by
  induction d with
  | nil =>
    simp only [List.nil_append, dictGet]
    rw [if_neg (fun e => h e.symm)]
  | cons hd tl ih =>
    obtain ⟨k1, v1⟩ := hd
    simp only [List.cons_append, dictGet]
    exact if_congr Iff.rfl rfl ih

theorem dictGet_insert_self {α : Type} (d : List (String × α)) (k : String) (v : α) :
    dictGet (dictInsert d k v) k = some v := by
  unfold dictInsert
  by_cases h : k ∈ dictKeys d
  · rw [if_pos (by simpa using h)]
    exact dictGet_overwrite_of_mem d k v h
  · rw [if_neg (by simpa using h)]
    rw [dictGet_append_left_none _ _ _ (dictGet_eq_none_of_not_mem d k h)]
    simp [dictGet]

theorem dictGet_insert_ne {α : Type} (d : List (String × α)) (k k' : String) (v : α)
    (h : k' ≠ k) : dictGet (dictInsert d k v) k' = dictGet d k' := by
  unfold dictInsert
  by_cases hc : k ∈ dictKeys d
  · rw [if_pos (by simpa using hc)]
    exact dictGet_overwrite_ne d k k' v h
  · rw [if_neg (by simpa using hc)]
    exact dictGet_append_single_ne d k k' v h

/-! Characterization of the access-point dictionaries built at `__init__`. -/

theorem dataFetchersStep_float (d : List (String × CtorKind)) (p : String) :
    dictGet (dataFetchersStep d p) "float" =
      if p = "wmo" then some CtorKind.fetch_wmo else dictGet d "float" := by
  unfold dataFetchersStep
  by_cases hw : p = "wmo"
  · simp [hw, dictGet_insert_self]
  · by_cases hb : p = "box"
    · simp [hw, hb, dictGet_insert_ne]
    · simp [hw, hb]

theorem dataFetchersStep_profile (d : List (String × CtorKind)) (p : String) :
    dictGet (dataFetchersStep d p) "profile" =
      if p = "wmo" then some CtorKind.fetch_wmo else dictGet d "profile" := by
  unfold dataFetchersStep
  by_cases hw : p = "wmo"
  · simp [hw, dictGet_insert_ne, dictGet_insert_self]
  · by_cases hb : p = "box"
    · simp [hw, hb, dictGet_insert_ne]
    · simp [hw, hb]

theorem dataFetchersStep_region (d : List (String × CtorKind)) (p : String) :
    dictGet (dataFetchersStep d p) "region" =
      if p = "box" then some CtorKind.fetch_box else dictGet d "region" := by
  unfold dataFetchersStep
  by_cases hw : p = "wmo"
  · by_cases hb : p = "box"
    · rw [hw] at hb; exact absurd hb (by decide)
    · simp [hw, hb, dictGet_insert_ne]
  · by_cases hb : p = "box"
    · simp [hw, hb, dictGet_insert_self]
    · simp [hw, hb]

theorem buildDataFetchers_go_float (aps : List String) (d : List (String × CtorKind)) :
    dictGet (aps.foldl dataFetchersStep d) "float" =
      if aps.contains "wmo" then some CtorKind.fetch_wmo else dictGet d "float" := by
  induction aps generalizing d with
  | nil => simp
  | cons p rest ih =>
    by_cases hw : p = "wmo"
    · simp [List.foldl_cons, ih, dataFetchersStep_float, hw]
    · simp [List.foldl_cons, ih, dataFetchersStep_float, hw, Ne.symm hw]

theorem buildDataFetchers_go_profile (aps : List String) (d : List (String × CtorKind)) :
    dictGet (aps.foldl dataFetchersStep d) "profile" =
      if aps.contains "wmo" then some CtorKind.fetch_wmo else dictGet d "profile" := by
  induction aps generalizing d with
  | nil => simp
  | cons p rest ih =>
    by_cases hw : p = "wmo"
    · simp [List.foldl_cons, ih, dataFetchersStep_profile, hw]
    · simp [List.foldl_cons, ih, dataFetchersStep_profile, hw, Ne.symm hw]

theorem buildDataFetchers_go_region (aps : List String) (d : List (String × CtorKind)) :
    dictGet (aps.foldl dataFetchersStep d) "region" =
      if aps.contains "box" then some CtorKind.fetch_box else dictGet d "region" := by
  induction aps generalizing d with
  | nil => simp
  | cons p rest ih =>
    by_cases hb : p = "box"
    · simp [List.foldl_cons, ih, dataFetchersStep_region, hb]
    · simp [List.foldl_cons, ih, dataFetchersStep_region, hb, Ne.symm hb]

theorem buildDataFetchers_float (aps : List String) :
    dictGet (buildDataFetchers aps) "float" =
      if aps.contains "wmo" then some CtorKind.fetch_wmo else none := by
  unfold buildDataFetchers
  rw [buildDataFetchers_go_float]
  simp [dictGet]

theorem buildDataFetchers_profile (aps : List String) :
    dictGet (buildDataFetchers aps) "profile" =
      if aps.contains "wmo" then some CtorKind.fetch_wmo else none := by
  unfold buildDataFetchers
  rw [buildDataFetchers_go_profile]
  simp [dictGet]

theorem buildDataFetchers_region (aps : List String) :
    dictGet (buildDataFetchers aps) "region" =
      if aps.contains "box" then some CtorKind.fetch_box else none := by
  unfold buildDataFetchers
  rw [buildDataFetchers_go_region]
  simp [dictGet]

theorem indexFetchersStep_float (d : List (String × CtorKind)) (p : String) :
    dictGet (indexFetchersStep d p) "float" =
      if p = "wmo" then some CtorKind.index_wmo else dictGet d "float" := by
  unfold indexFetchersStep
  by_cases hw : p = "wmo"
  · simp [hw, dictGet_insert_self]
  · by_cases hb : p = "box"
    · simp [hw, hb, dictGet_insert_ne]
    · simp [hw, hb]

theorem indexFetchersStep_region (d : List (String × CtorKind)) (p : String) :
    dictGet (indexFetchersStep d p) "region" =
      if p = "box" then some CtorKind.index_box else dictGet d "region" := by
  unfold indexFetchersStep
  by_cases hw : p = "wmo"
  · by_cases hb : p = "box"
    · rw [hw] at hb; exact absurd hb (by decide)
    · simp [hw, hb, dictGet_insert_ne]
  · by_cases hb : p = "box"
    · simp [hw, hb, dictGet_insert_self]
    · simp [hw, hb]

theorem buildIndexFetchers_go_float (aps : List String) (d : List (String × CtorKind)) :
    dictGet (aps.foldl indexFetchersStep d) "float" =
      if aps.contains "wmo" then some CtorKind.index_wmo else dictGet d "float" := by
  induction aps generalizing d with
  | nil => simp
  | cons p rest ih =>
    by_cases hw : p = "wmo"
    · simp [List.foldl_cons, ih, indexFetchersStep_float, hw]
    · simp [List.foldl_cons, ih, indexFetchersStep_float, hw, Ne.symm hw]

theorem buildIndexFetchers_go_region (aps : List String) (d : List (String × CtorKind)) :
    dictGet (aps.foldl indexFetchersStep d) "region" =
      if aps.contains "box" then some CtorKind.index_box else dictGet d "region" := by
  induction aps generalizing d with
  | nil => simp
  | cons p rest ih =>
    by_cases hb : p = "box"
    · simp [List.foldl_cons, ih, indexFetchersStep_region, hb]
    · simp [List.foldl_cons, ih, indexFetchersStep_region, hb, Ne.symm hb]

theorem buildIndexFetchers_float (aps : List String) :
    dictGet (buildIndexFetchers aps) "float" =
      if aps.contains "wmo" then some CtorKind.index_wmo else none := by
  unfold buildIndexFetchers
  rw [buildIndexFetchers_go_float]
  simp [dictGet]

theorem buildIndexFetchers_region (aps : List String) :
    dictGet (buildIndexFetchers aps) "region" =
      if aps.contains "box" then some CtorKind.index_box else none := by
  unfold buildIndexFetchers
  rw [buildIndexFetchers_go_region]
  simp [dictGet]

/-! Inversion of successful construction. -/

theorem ArgoDataFetcher.init_ok_inv (OPTIONS : Options)
    (sources : List (String × BackendModule)) (mode src : String) (ds : Option String)
    (kwargs : List (String × String)) (st : ArgoDataFetcherState)
    (h : ArgoDataFetcher.init OPTIONS sources mode src ds kwargs = Except.ok st) :
    ∃ F dsv, dictGet sources st._src = some F ∧
      st.Fetchers = buildDataFetchers F.access_points ∧
      st.fetcher = none ∧
      st.postproccessor = PostProc.empty_processor ∧
      st.valid_access_points = ["profile", "float", "region"] ∧
      st.fetcher_options = dictMerge [("ds", dsv)] kwargs ∧
      st._mode = (if mode = "" then OPTIONS.mode else mode) ∧
      st._dataset_id = (if ds = some "" then some OPTIONS.dataset else ds) := by
  unfold ArgoDataFetcher.init at h
  (try simp only [] at h)
  generalize (if mode = "" then OPTIONS.mode else mode) = m at h ⊢
  generalize (if ds = some "" then some OPTIONS.dataset else ds) = dsid at h ⊢
  generalize (if src = "" then OPTIONS.src else src) = sc at h ⊢
  repeat' split at h
  all_goals (try exact Except.noConfusion h)
  all_goals (rw [Except.ok.injEq] at h; subst h)
  all_goals exact ⟨_, _, by assumption, rfl, rfl, rfl, rfl, rfl, rfl, rfl⟩

theorem ArgoIndexFetcher.index_init_ok_inv (OPTIONS : Options)
    (sources : List (String × BackendModule)) (mode src : String)
    (kwargs : List (String × String)) (st : ArgoIndexFetcherState)
    (h : ArgoIndexFetcher.init OPTIONS sources mode src kwargs = Except.ok st) :
    ∃ F, dictGet sources st._src = some F ∧
      st.Fetchers = buildIndexFetchers F.access_points ∧
      st.fetcher = none ∧
      st.postproccessor = PostProc.empty_processor ∧
      st.valid_access_points = ["float", "region"] ∧
      st.fetcher_options = kwargs ∧
      st._mode = (if mode = "" then OPTIONS.mode else mode) := by
  unfold ArgoIndexFetcher.init at h
  (try simp only [] at h)
  generalize (if mode = "" then OPTIONS.mode else mode) = m at h ⊢
  generalize (if src = "" then OPTIONS.src else src) = sc at h ⊢
  repeat' split at h
  all_goals (try exact Except.noConfusion h)
  all_goals (rw [Except.ok.injEq] at h; subst h)
  all_goals exact ⟨_, by assumption, rfl, rfl, rfl, rfl, rfl, rfl⟩

/-! Inversion of the access-point methods. -/

theorem ArgoDataFetcher.float_ret_inv (s : ArgoDataFetcherState) (wmo : String)
    (kw : List (String × String)) (s1 : ArgoDataFetcherState)
    (h : ArgoDataFetcher.float s wmo kw = MethodResult.ret s1) :
    cyc_in_kw kw = false ∧
    ∃ k, dictGet s.Fetchers "float" = some k ∧
      s1 = (if s._mode = "standard" ∧ s._dataset_id ≠ some "ref" then
              { s with fetcher := some ⟨k, some wmo, none, none, s.fetcher_options⟩,
                       postproccessor := PostProc.postprocessing }
            else
              { s with fetcher := some ⟨k, some wmo, none, none, s.fetcher_options⟩ }) := by
  unfold ArgoDataFetcher.float at h
  by_cases hc : cyc_in_kw kw = true
  · rw [if_pos (by simpa using hc)] at h
    exact MethodResult.noConfusion h
  · rw [if_neg (by simpa using hc)] at h
    refine ⟨by simpa using hc, ?_⟩
    (try simp only [] at h)
    split at h
    · next k hk =>
      rw [MethodResult.ret.injEq] at h
      subst h
      exact ⟨k, hk, rfl⟩
    · exact MethodResult.noConfusion h

theorem ArgoDataFetcher.profile_ret_inv (s : ArgoDataFetcherState) (wmo cyc : String)
    (s1 : ArgoDataFetcherState)
    (h : ArgoDataFetcher.profile s wmo cyc = MethodResult.ret s1) :
    ∃ k, dictGet s.Fetchers "profile" = some k ∧
      s1 = (if s._mode = "standard" ∧ s._dataset_id ≠ some "ref" then
              { s with fetcher := some ⟨k, some wmo, some cyc, none, s.fetcher_options⟩,
                       postproccessor := PostProc.postprocessing }
            else
              { s with fetcher := some ⟨k, some wmo, some cyc, none, s.fetcher_options⟩ }) := by
  unfold ArgoDataFetcher.profile at h
  (try simp only [] at h)
  split at h
  · next k hk =>
    rw [MethodResult.ret.injEq] at h
    subst h
    exact ⟨k, hk, rfl⟩
  · exact MethodResult.noConfusion h

theorem ArgoDataFetcher.region_ret_inv (s : ArgoDataFetcherState) (box_ : String)
    (s1 : ArgoDataFetcherState)
    (h : ArgoDataFetcher.region s box_ = MethodResult.ret s1) :
    ∃ k, dictGet s.Fetchers "region" = some k ∧
      s1 = (if s._mode = "standard" ∧ s._dataset_id ≠ some "ref" then
              { s with fetcher := some ⟨k, none, none, some box_, s.fetcher_options⟩,
                       postproccessor := PostProc.postprocessing }
            else
              { s with fetcher := some ⟨k, none, none, some box_, s.fetcher_options⟩ }) := by
  unfold ArgoDataFetcher.region at h
  (try simp only [] at h)
  split at h
  · next k hk =>
    rw [MethodResult.ret.injEq] at h
    subst h
    exact ⟨k, hk, rfl⟩
  · exact MethodResult.noConfusion h

theorem ArgoIndexFetcher.index_float_ret_inv (s : ArgoIndexFetcherState) (wmo : String)
    (s1 : ArgoIndexFetcherState)
    (h : ArgoIndexFetcher.float s wmo = MethodResult.ret s1) :
    ∃ k, dictGet s.Fetchers "float" = some k ∧
      s1 = { s with fetcher := some ⟨k, some wmo, none, none, s.fetcher_options⟩ } := by
  unfold ArgoIndexFetcher.float at h
  split at h
  · next k hk =>
    rw [MethodResult.ret.injEq] at h
    subst h
    exact ⟨k, hk, rfl⟩
  · exact MethodResult.noConfusion h

theorem ArgoIndexFetcher.index_region_ret_inv (s : ArgoIndexFetcherState) (box_ : String)
    (s1 : ArgoIndexFetcherState)
    (h : ArgoIndexFetcher.region s box_ = MethodResult.ret s1) :
    ∃ k, dictGet s.Fetchers "region" = some k ∧
      s1 = { s with fetcher := some ⟨k, none, none, some box_, s.fetcher_options⟩ } := by
  unfold ArgoIndexFetcher.region at h
  split at h
  · next k hk =>
    rw [MethodResult.ret.injEq] at h
    subst h
    exact ⟨k, hk, rfl⟩
  · exact MethodResult.noConfusion h

theorem ArgoDataFetcher.float_raised_inv (s : ArgoDataFetcherState) (wmo : String)
    (kw : List (String × String)) (e : PyError) (s1 : ArgoDataFetcherState)
    (h : ArgoDataFetcher.float s wmo kw = MethodResult.raised e s1) : s1 = s := by
  unfold ArgoDataFetcher.float at h
  split at h
  · rw [MethodResult.raised.injEq] at h
    exact h.2.symm
  · (try simp only [] at h)
    split at h
    · exact MethodResult.noConfusion h
    · rw [MethodResult.raised.injEq] at h
      exact h.2.symm

theorem ArgoDataFetcher.profile_raised_inv (s : ArgoDataFetcherState) (wmo cyc : String)
    (e : PyError) (s1 : ArgoDataFetcherState)
    (h : ArgoDataFetcher.profile s wmo cyc = MethodResult.raised e s1) : s1 = s := by
  unfold ArgoDataFetcher.profile at h
  (try simp only [] at h)
  split at h
  · exact MethodResult.noConfusion h
  · rw [MethodResult.raised.injEq] at h
    exact h.2.symm

theorem ArgoDataFetcher.region_raised_inv (s : ArgoDataFetcherState) (box_ : String)
    (e : PyError) (s1 : ArgoDataFetcherState)
    (h : ArgoDataFetcher.region s box_ = MethodResult.raised e s1) : s1 = s := by
  unfold ArgoDataFetcher.region at h
  (try simp only [] at h)
  split at h
  · exact MethodResult.noConfusion h
  · rw [MethodResult.raised.injEq] at h
    exact h.2.symm

theorem ArgoIndexFetcher.index_float_raised_inv (si : ArgoIndexFetcherState) (wmo : String)
    (e : PyError) (t1 : ArgoIndexFetcherState)
    (h : ArgoIndexFetcher.float si wmo = MethodResult.raised e t1) : t1 = si := by
  unfold ArgoIndexFetcher.float at h
  split at h
  · exact MethodResult.noConfusion h
  · rw [MethodResult.raised.injEq] at h
    exact h.2.symm

theorem ArgoIndexFetcher.index_region_raised_inv (si : ArgoIndexFetcherState) (box_ : String)
    (e : PyError) (t1 : ArgoIndexFetcherState)
    (h : ArgoIndexFetcher.region si box_ = MethodResult.raised e t1) : t1 = si := by
  unfold ArgoIndexFetcher.region at h
  split at h
  · exact MethodResult.noConfusion h
  · rw [MethodResult.raised.injEq] at h
    exact h.2.symm

/-! Behaviour of `to_xarray` for each post-processor. -/

theorem ArgoDataFetcher.to_xarray_empty (s : ArgoDataFetcherState)
    (f : FetcherInstance) (kwargs : List (String × String))
    (hf : s.fetcher = some f) (hp : s.postproccessor = PostProc.empty_processor) :
    ArgoDataFetcher.to_xarray s kwargs = Except.ok (XDS.raw f kwargs) := by
  unfold ArgoDataFetcher.to_xarray
  rw [hf, hp]

theorem ArgoDataFetcher.to_xarray_chain (s : ArgoDataFetcherState)
    (f : FetcherInstance) (kwargs : List (String × String))
    (hf : s.fetcher = some f) (hp : s.postproccessor = PostProc.postprocessing) :
    ArgoDataFetcher.to_xarray s kwargs =
      Except.ok (XDS.filter_variables f s._mode
        (XDS.filter_qc f (XDS.filter_data_mode f (XDS.raw f kwargs)))) := by
  unfold ArgoDataFetcher.to_xarray
  rw [hf, hp]

/-! The claims. -/

/-- Claim C1, evaluated at the failing input: constructing `ArgoDataFetcher`
with the dataset argument left unset (the default `""`) under default
options (dataset `"phy"`) resolves `_dataset_id` to `"phy"`, yet the 'ds'
option stored for the backend — and handed to the backend constructor by a
subsequent `float` call — is the raw unset argument `""`, not the resolved
identifier: the `if ds is None` fallback never fires because the unset
sentinel is `""`. -/
theorem C1_unset_ds_passed_raw_to_backend :
    ∃ st st1,
      ArgoDataFetcher.init demoOptions demoSources "" "" (some "") [] = Except.ok st ∧
      st._dataset_id = some "phy" ∧
      dictGet st.fetcher_options "ds" = some "" ∧
      ArgoDataFetcher.float st "6902746" [] = MethodResult.ret st1 ∧
      ∃ f, st1.fetcher = some f ∧ dictGet f.options "ds" = some "" := by
  refine ⟨_, _, rfl, rfl, by decide, rfl, _, rfl, by decide⟩

/-- Claim C5: for every facade state, every WMO argument and every keyword
set containing 'CYC' or 'cyc', `float` raises a TypeError directing the
caller to the profile access point, before any fetcher is constructed (the
facade state is left exactly as it was). -/
theorem C5_float_rejects_cycle_keyword (s : ArgoDataFetcherState) (wmo : String)
    (kw : List (String × String)) (h : cyc_in_kw kw = true) :
    ArgoDataFetcher.float s wmo kw =
      MethodResult.raised (PyError.typeError "float() got an unexpected keyword argument 'cyc'. Use 'profile' access point to fetch specific profile data.") s := by
  unfold ArgoDataFetcher.float
  rw [if_pos (by simpa using h)]

/-- Witness for C5: the cycle-number keyword rejection at a concrete input
(a backend that does support 'wmo', showing the check fires first). -/
theorem C5_witness :
    cyc_in_kw [("CYC", "1")] = true ∧
    ArgoDataFetcher.float demoStdState "6902746" [("CYC", "1")] =
      MethodResult.raised (PyError.typeError "float() got an unexpected keyword argument 'cyc'. Use 'profile' access point to fetch specific profile data.") demoStdState :=
  ⟨rfl, C5_float_rejects_cycle_keyword demoStdState "6902746" [("CYC", "1")] rfl⟩

/-- Claim C7: on every facade state and keyword set, `to_dataframe` is
exactly "retrieval via `to_xarray` then tabular conversion". -/
theorem C7_to_dataframe_is_to_xarray_then_conversion (s : ArgoDataFetcherState)
    (kwargs : List (String × String)) :
    ArgoDataFetcher.to_dataframe s kwargs = ArgoDataFetcher.to_dataframe_spec s kwargs := by
  unfold ArgoDataFetcher.to_dataframe ArgoDataFetcher.to_dataframe_spec
  cases ArgoDataFetcher.to_xarray s kwargs <;> rfl

/-- Claim C10: every failing access-point call (on either facade) leaves the
facade state exactly as it was before the call. -/
theorem C10_failing_access_point_is_atomic (s : ArgoDataFetcherState)
    (si : ArgoIndexFetcherState) (wmo cyc box_ : String)
    (kw : List (String × String)) (e : PyError) :
    (∀ s1, ArgoDataFetcher.float s wmo kw = MethodResult.raised e s1 → s1 = s) ∧
    (∀ s1, ArgoDataFetcher.profile s wmo cyc = MethodResult.raised e s1 → s1 = s) ∧
    (∀ s1, ArgoDataFetcher.region s box_ = MethodResult.raised e s1 → s1 = s) ∧
    (∀ t1, ArgoIndexFetcher.float si wmo = MethodResult.raised e t1 → t1 = si) ∧
    (∀ t1, ArgoIndexFetcher.region si box_ = MethodResult.raised e t1 → t1 = si) := by
  exact ⟨fun s1 h => ArgoDataFetcher.float_raised_inv s wmo kw e s1 h,
         fun s1 h => ArgoDataFetcher.profile_raised_inv s wmo cyc e s1 h,
         fun s1 h => ArgoDataFetcher.region_raised_inv s box_ e s1 h,
         fun t1 h => ArgoIndexFetcher.index_float_raised_inv si wmo e t1 h,
         fun t1 h => ArgoIndexFetcher.index_region_raised_inv si box_ e t1 h⟩

/-- Witness for C10: the failing `float` call on a box-only backend leaves
the facade in its prior state. -/
theorem C10_witness :
    ArgoDataFetcher.float demoBoxOnlyState "6902746" [] =
      MethodResult.raised (PyError.invalidFetcherAccessPoint "'float' not available with 'boxonly' src") demoBoxOnlyState ∧
    demoBoxOnlyState = demoBoxOnlyState :=
  ⟨rfl,
   (C10_failing_access_point_is_atomic demoBoxOnlyState demoIndexBoxOnlyState
      "6902746" "1" "box" [] (PyError.invalidFetcherAccessPoint "'float' not available with 'boxonly' src")).1
     demoBoxOnlyState rfl⟩

/-- Claim C6: on an index facade with a bound fetcher, `plot` dispatches
'dac' to `plot_dac`, 'profiler' to `plot_profilerType`, 'trajectory' (the
default) to `plot_trajectory` on the frame sorted by the 'file' column, and
raises a ValueError on every other plot type; the produced figure records
that exactly one rendering collaborator was invoked. -/
theorem C6_plot_dispatch (si : ArgoIndexFetcherState) (f : FetcherInstance)
    (hf : si.fetcher = some f) (ptype : String) :
    ArgoIndexFetcher.plot si "dac" =
      Except.ok (Figure.plot_dac (DFrame.index_frame f [])) ∧
    ArgoIndexFetcher.plot si "profiler" =
      Except.ok (Figure.plot_profilerType (DFrame.index_frame f [])) ∧
    ArgoIndexFetcher.plot si "trajectory" =
      Except.ok (Figure.plot_trajectory (DFrame.sort_values ["file"] (DFrame.index_frame f []))) ∧
    (ptype ≠ "dac" → ptype ≠ "profiler" → ptype ≠ "trajectory" →
      ArgoIndexFetcher.plot si ptype =
        Except.error (PyError.valueError "Type of plot unavailable. Use: 'dac', 'profiler' or 'trajectory' (default)")) := by
  refine ⟨?_, ?_, ?_, ?_⟩
  · simp [ArgoIndexFetcher.plot, ArgoIndexFetcher.to_dataframe, hf]
  · simp [ArgoIndexFetcher.plot, ArgoIndexFetcher.to_dataframe, hf]
  · simp [ArgoIndexFetcher.plot, ArgoIndexFetcher.to_dataframe, hf]
  · intro h1 h2 h3
    unfold ArgoIndexFetcher.plot ArgoIndexFetcher.to_dataframe
    rw [hf]
    simp only []
    rw [if_neg h1, if_neg h2, if_neg h3]

/-- Witness for C6 at a concrete bound index facade and a bogus ptype. -/
theorem C6_witness :
    demoIndexBound.fetcher = some demoIndexFetcher ∧
    ArgoIndexFetcher.plot demoIndexBound "trajectory" =
      Except.ok (Figure.plot_trajectory (DFrame.sort_values ["file"] (DFrame.index_frame demoIndexFetcher []))) ∧
    ArgoIndexFetcher.plot demoIndexBound "bogus" =
      Except.error (PyError.valueError "Type of plot unavailable. Use: 'dac', 'profiler' or 'trajectory' (default)") := by
  have h := C6_plot_dispatch demoIndexBound demoIndexFetcher rfl "bogus"
  exact ⟨rfl, h.2.2.1, h.2.2.2 (by decide) (by decide) (by decide)⟩

/-- Claim C4: on both facades, every terminal retrieval method called before
an access point is bound fails with `InvalidFetcher`, the message
enumerating the access points available for the current backend; with a
bound fetcher the terminal methods succeed (and, being pure functions of
the state, are repeatable). -/
theorem C4_terminal_requires_bound_fetcher (s : ArgoDataFetcherState)
    (si : ArgoIndexFetcherState) (kwargs : List (String × String)) (file : String) :
    (s.fetcher = none →
      ArgoDataFetcher.to_xarray s kwargs =
        Except.error (PyError.invalidFetcher (" Initialize an access point (" ++
          String.intercalate "," (dictKeys s.Fetchers) ++ ") first.")) ∧
      ArgoDataFetcher.to_dataframe s kwargs =
        Except.error (PyError.invalidFetcher (" Initialize an access point (" ++
          String.intercalate "," (dictKeys s.Fetchers) ++ ") first."))) ∧
    (si.fetcher = none →
      ArgoIndexFetcher.to_dataframe si kwargs =
        Except.error (PyError.invalidFetcher (" Initialize an access point (" ++
          String.intercalate "," (dictKeys si.Fetchers) ++ ") first.")) ∧
      ArgoIndexFetcher.to_xarray si kwargs =
        Except.error (PyError.invalidFetcher (" Initialize an access point (" ++
          String.intercalate "," (dictKeys si.Fetchers) ++ ") first.")) ∧
      ArgoIndexFetcher.to_csv si file =
        Except.error (PyError.invalidFetcher (" Initialize an access point (" ++
          String.intercalate "," (dictKeys si.Fetchers) ++ ") first."))) ∧
    (∀ f, s.fetcher = some f →
      (∃ x, ArgoDataFetcher.to_xarray s kwargs = Except.ok x) ∧
      (∃ d, ArgoDataFetcher.to_dataframe s kwargs = Except.ok d)) ∧
    (∀ f, si.fetcher = some f →
      (∃ d, ArgoIndexFetcher.to_dataframe si kwargs = Except.ok d) ∧
      (∃ x, ArgoIndexFetcher.to_xarray si kwargs = Except.ok x) ∧
      (∃ c, ArgoIndexFetcher.to_csv si file = Except.ok c)) := by
  refine ⟨?_, ?_, ?_, ?_⟩
  · intro h
    unfold ArgoDataFetcher.to_dataframe ArgoDataFetcher.to_xarray
    rw [h]
    exact ⟨rfl, rfl⟩
  · intro h
    unfold ArgoIndexFetcher.to_csv ArgoIndexFetcher.to_xarray ArgoIndexFetcher.to_dataframe
    rw [h]
    exact ⟨rfl, rfl, rfl⟩
  · intro f h
    unfold ArgoDataFetcher.to_dataframe ArgoDataFetcher.to_xarray
    rw [h]
    cases hp : s.postproccessor
    · exact ⟨⟨_, rfl⟩, ⟨_, rfl⟩⟩
    · exact ⟨⟨_, rfl⟩, ⟨_, rfl⟩⟩
  · intro f h
    unfold ArgoIndexFetcher.to_csv ArgoIndexFetcher.to_xarray ArgoIndexFetcher.to_dataframe
    rw [h]
    exact ⟨⟨_, rfl⟩, ⟨_, rfl⟩, ⟨_, rfl⟩⟩

/-- Witness for C4: on freshly constructed facades the terminal calls fail
with the expected enumerating message, and after binding they succeed. -/
theorem C4_witness :
    demoStdState.fetcher = none ∧
    ArgoDataFetcher.to_xarray demoStdState [] =
      Except.error (PyError.invalidFetcher " Initialize an access point (profile,float,region) first.") ∧
    ArgoIndexFetcher.to_dataframe demoIndexState [] =
      Except.error (PyError.invalidFetcher " Initialize an access point (float,region) first.") ∧
    demoIndexBound.fetcher = some demoIndexFetcher ∧
    (∃ d, ArgoIndexFetcher.to_dataframe demoIndexBound [] = Except.ok d) := by
  have h1 := (C4_terminal_requires_bound_fetcher demoStdState demoIndexState [] "output_file.csv").1 rfl
  have h2 := (C4_terminal_requires_bound_fetcher demoStdState demoIndexState [] "output_file.csv").2.1 rfl
  have h3 := (C4_terminal_requires_bound_fetcher demoStdState demoIndexBound [] "output_file.csv").2.2.2 demoIndexFetcher rfl
  exact ⟨rfl, h1.1, h2.1, rfl, h3.1⟩

/-- Claim C9: on both facades, the `__getattr__` fallback (invoked for
attribute names not defined on the object) raises
`InvalidFetcherAccessPoint` for every name outside the facade's valid
access-point list and the internal allow-list; on the index facade (which
defines no `profile` method) accessing 'profile' raises
`InvalidFetcherAccessPoint`; and an allow-listed name falls through to
`None` instead of an error. -/
theorem C9_getattr_validates_access_points (OPTIONS : Options)
    (sources : List (String × BackendModule)) (mode src : String) (ds : Option String)
    (kwargs : List (String × String)) (st : ArgoDataFetcherState)
    (OPTIONS2 : Options) (sources2 : List (String × BackendModule)) (mode2 src2 : String)
    (kwargs2 : List (String × String)) (sti : ArgoIndexFetcherState)
    (hd : ArgoDataFetcher.init OPTIONS sources mode src ds kwargs = Except.ok st)
    (hi : ArgoIndexFetcher.init OPTIONS2 sources2 mode2 src2 kwargs2 = Except.ok sti)
    (key : String) :
    (st.valid_access_points.contains key = false → valid_attrs.contains key = false →
      ArgoDataFetcher.getattr st key =
        Except.error (PyError.invalidFetcherAccessPoint ("'" ++ key ++ "' is not a valid access point"))) ∧
    (sti.valid_access_points.contains key = false → valid_attrs.contains key = false →
      ArgoIndexFetcher.getattr sti key =
        Except.error (PyError.invalidFetcherAccessPoint ("'" ++ key ++ "' is not a valid access point"))) ∧
    ArgoIndexFetcher.getattr sti "profile" =
      Except.error (PyError.invalidFetcherAccessPoint "'profile' is not a valid access point") ∧
    (valid_attrs.contains key = true →
      ArgoDataFetcher.getattr st key = Except.ok none ∧
      ArgoIndexFetcher.getattr sti key = Except.ok none) := by
  obtain ⟨F, hF, hFe, hfe, hpp, hvap, hopt, hm⟩ := ArgoIndexFetcher.index_init_ok_inv _ _ _ _ _ _ hi
  refine ⟨?_, ?_, ?_, ?_⟩
  · intro h1 h2
    unfold ArgoDataFetcher.getattr
    rw [if_pos ⟨by simpa using h1, by simpa using h2⟩]
  · intro h1 h2
    unfold ArgoIndexFetcher.getattr
    rw [if_pos ⟨by simpa using h1, by simpa using h2⟩]
  · unfold ArgoIndexFetcher.getattr
    rw [hvap]
    rw [if_pos ⟨by decide, by decide⟩]
    rfl
  · intro h1
    constructor
    · unfold ArgoDataFetcher.getattr
      rw [if_neg (fun hh => hh.2 (by simpa using h1))]
    · unfold ArgoIndexFetcher.getattr
      rw [if_neg (fun hh => hh.2 (by simpa using h1))]

/-- Witness for C9 at concrete facades: 'profile' on the index facade and a
typo'd name on the data facade both raise; the allow-listed 'fetcher'
falls through to `None`. -/
theorem C9_witness :
    ArgoIndexFetcher.getattr demoIndexState "profile" =
      Except.error (PyError.invalidFetcherAccessPoint "'profile' is not a valid access point") ∧
    ArgoDataFetcher.getattr demoStdState "floats" =
      Except.error (PyError.invalidFetcherAccessPoint "'floats' is not a valid access point") ∧
    ArgoDataFetcher.getattr demoStdState "fetcher" = Except.ok none := by
  have h := C9_getattr_validates_access_points demoOptions demoSources "standard" "" (some "") []
    demoStdState demoOptions demoSources "" "" [] demoIndexState rfl rfl "floats"
  have h2 := C9_getattr_validates_access_points demoOptions demoSources "standard" "" (some "") []
    demoStdState demoOptions demoSources "" "" [] demoIndexState rfl rfl "fetcher"
  exact ⟨h.2.2.1, h.1 rfl rfl, (h2.2.2.2 rfl).1⟩

/-- Claim C8: every successful access-point call on either facade returns
the facade itself with a freshly constructed backend fetcher bound
(overwriting any previous binding), leaves the configuration fields
unchanged, and leaves the facade bound; failing calls do not unbind a
previously bound fetcher. -/
theorem C8_access_point_rebinds_and_chains (s : ArgoDataFetcherState)
    (si : ArgoIndexFetcherState) (wmo cyc box_ : String)
    (kw : List (String × String)) :
    (∀ s1, ArgoDataFetcher.float s wmo kw = MethodResult.ret s1 →
      (∃ k, dictGet s.Fetchers "float" = some k ∧
        s1.fetcher = some ⟨k, some wmo, none, none, s.fetcher_options⟩) ∧
      s1._mode = s._mode ∧ s1._dataset_id = s._dataset_id ∧ s1._src = s._src ∧
      s1.valid_access_points = s.valid_access_points ∧ s1.Fetchers = s.Fetchers ∧
      s1.fetcher_options = s.fetcher_options ∧ s1.fetcher ≠ none) ∧
    (∀ s1, ArgoDataFetcher.profile s wmo cyc = MethodResult.ret s1 →
      (∃ k, dictGet s.Fetchers "profile" = some k ∧
        s1.fetcher = some ⟨k, some wmo, some cyc, none, s.fetcher_options⟩) ∧
      s1._mode = s._mode ∧ s1._dataset_id = s._dataset_id ∧ s1._src = s._src ∧
      s1.valid_access_points = s.valid_access_points ∧ s1.Fetchers = s.Fetchers ∧
      s1.fetcher_options = s.fetcher_options ∧ s1.fetcher ≠ none) ∧
    (∀ s1, ArgoDataFetcher.region s box_ = MethodResult.ret s1 →
      (∃ k, dictGet s.Fetchers "region" = some k ∧
        s1.fetcher = some ⟨k, none, none, some box_, s.fetcher_options⟩) ∧
      s1._mode = s._mode ∧ s1._dataset_id = s._dataset_id ∧ s1._src = s._src ∧
      s1.valid_access_points = s.valid_access_points ∧ s1.Fetchers = s.Fetchers ∧
      s1.fetcher_options = s.fetcher_options ∧ s1.fetcher ≠ none) ∧
    (∀ t1, ArgoIndexFetcher.float si wmo = MethodResult.ret t1 →
      ∃ k, dictGet si.Fetchers "float" = some k ∧
        t1 = { si with fetcher := some ⟨k, some wmo, none, none, si.fetcher_options⟩ }) ∧
    (∀ t1, ArgoIndexFetcher.region si box_ = MethodResult.ret t1 →
      ∃ k, dictGet si.Fetchers "region" = some k ∧
        t1 = { si with fetcher := some ⟨k, none, none, some box_, si.fetcher_options⟩ }) ∧
    (∀ e s1, ArgoDataFetcher.float s wmo kw = MethodResult.raised e s1 →
      s1.fetcher = s.fetcher) ∧
    (∀ e t1, ArgoIndexFetcher.float si wmo = MethodResult.raised e t1 →
      t1.fetcher = si.fetcher) := by
  refine ⟨?_, ?_, ?_, ?_, ?_, ?_, ?_⟩
  · intro s1 h
    obtain ⟨-, k, hk, hs1⟩ := ArgoDataFetcher.float_ret_inv s wmo kw s1 h
    subst hs1
    by_cases hc : s._mode = "standard" ∧ s._dataset_id ≠ some "ref"
    · rw [if_pos hc]
      exact ⟨⟨k, hk, rfl⟩, rfl, rfl, rfl, rfl, rfl, rfl, by simp⟩
    · rw [if_neg hc]
      exact ⟨⟨k, hk, rfl⟩, rfl, rfl, rfl, rfl, rfl, rfl, by simp⟩
  · intro s1 h
    obtain ⟨k, hk, hs1⟩ := ArgoDataFetcher.profile_ret_inv s wmo cyc s1 h
    subst hs1
    by_cases hc : s._mode = "standard" ∧ s._dataset_id ≠ some "ref"
    · rw [if_pos hc]
      exact ⟨⟨k, hk, rfl⟩, rfl, rfl, rfl, rfl, rfl, rfl, by simp⟩
    · rw [if_neg hc]
      exact ⟨⟨k, hk, rfl⟩, rfl, rfl, rfl, rfl, rfl, rfl, by simp⟩
  · intro s1 h
    obtain ⟨k, hk, hs1⟩ := ArgoDataFetcher.region_ret_inv s box_ s1 h
    subst hs1
    by_cases hc : s._mode = "standard" ∧ s._dataset_id ≠ some "ref"
    · rw [if_pos hc]
      exact ⟨⟨k, hk, rfl⟩, rfl, rfl, rfl, rfl, rfl, rfl, by simp⟩
    · rw [if_neg hc]
      exact ⟨⟨k, hk, rfl⟩, rfl, rfl, rfl, rfl, rfl, rfl, by simp⟩
  · intro t1 h
    exact ArgoIndexFetcher.index_float_ret_inv si wmo t1 h
  · intro t1 h
    exact ArgoIndexFetcher.index_region_ret_inv si box_ t1 h
  · intro e s1 h
    rw [ArgoDataFetcher.float_raised_inv s wmo kw e s1 h]
  · intro e t1 h
    rw [ArgoIndexFetcher.index_float_raised_inv si wmo e t1 h]

/-- Witness for C8: a successful `float` call on the demo standard facade
returns the facade rebound to a fresh fetcher, with the configuration
fields unchanged and the facade no longer unbound. -/
theorem C8_witness :
    ArgoDataFetcher.float demoStdState "6902746" [] = MethodResult.ret demoStdBound ∧
    demoStdBound._mode = demoStdState._mode ∧
    demoStdBound.fetcher ≠ none := by
  have h := (C8_access_point_rebinds_and_chains demoStdState demoIndexState
    "6902746" "1" "box" []).1 demoStdBound rfl
  exact ⟨rfl, h.2.1, h.2.2.2.2.2.2.2⟩


/-- Claim C2: on every constructed `ArgoDataFetcher` the post-processor is
the identity (`__empty_processor`) by default, and after any successful
access-point call the three-step chain (`filter_data_mode`, then
`filter_qc`, then `filter_variables`) is installed and applied by
`to_xarray` exactly when the mode is "standard" and the dataset is not
"ref"; in every other mode/dataset combination `to_xarray` returns the
backend's dataset unchanged. -/
theorem C2_postprocessor_chain_iff_standard_nonref (OPTIONS : Options)
    (sources : List (String × BackendModule)) (mode src : String) (ds : Option String)
    (kwargs0 : List (String × String)) (st : ArgoDataFetcherState)
    (hinit : ArgoDataFetcher.init OPTIONS sources mode src ds kwargs0 = Except.ok st) :
    st.postproccessor = PostProc.empty_processor ∧
    (∀ wmo kw s1, ArgoDataFetcher.float st wmo kw = MethodResult.ret s1 →
      postprocSpec st s1) ∧
    (∀ wmo cyc s1, ArgoDataFetcher.profile st wmo cyc = MethodResult.ret s1 →
      postprocSpec st s1) ∧
    (∀ b s1, ArgoDataFetcher.region st b = MethodResult.ret s1 →
      postprocSpec st s1) := by
  obtain ⟨F, dsv, hF, hFe, hfe, hpp, hvap, hopt, hm, hdsid⟩ :=
    ArgoDataFetcher.init_ok_inv _ _ _ _ _ _ _ hinit
  refine ⟨hpp, ?_, ?_, ?_⟩
  · intro wmo kw s1 h
    obtain ⟨-, k, hk, hs1⟩ := ArgoDataFetcher.float_ret_inv st wmo kw s1 h
    subst hs1
    constructor
    · intro hc
      rw [if_pos hc]
      refine ⟨rfl, ?_⟩
      intro f kwargs hf
      rw [Option.some.injEq] at hf
      subst hf
      exact ArgoDataFetcher.to_xarray_chain _ _ _ rfl rfl
    · intro hc
      rw [if_neg hc]
      refine ⟨hpp, ?_⟩
      intro f kwargs hf
      rw [Option.some.injEq] at hf
      subst hf
      exact ArgoDataFetcher.to_xarray_empty _ _ _ rfl hpp
  · intro wmo cyc s1 h
    obtain ⟨k, hk, hs1⟩ := ArgoDataFetcher.profile_ret_inv st wmo cyc s1 h
    subst hs1
    constructor
    · intro hc
      rw [if_pos hc]
      refine ⟨rfl, ?_⟩
      intro f kwargs hf
      rw [Option.some.injEq] at hf
      subst hf
      exact ArgoDataFetcher.to_xarray_chain _ _ _ rfl rfl
    · intro hc
      rw [if_neg hc]
      refine ⟨hpp, ?_⟩
      intro f kwargs hf
      rw [Option.some.injEq] at hf
      subst hf
      exact ArgoDataFetcher.to_xarray_empty _ _ _ rfl hpp
  · intro b s1 h
    obtain ⟨k, hk, hs1⟩ := ArgoDataFetcher.region_ret_inv st b s1 h
    subst hs1
    constructor
    · intro hc
      rw [if_pos hc]
      refine ⟨rfl, ?_⟩
      intro f kwargs hf
      rw [Option.some.injEq] at hf
      subst hf
      exact ArgoDataFetcher.to_xarray_chain _ _ _ rfl rfl
    · intro hc
      rw [if_neg hc]
      refine ⟨hpp, ?_⟩
      intro f kwargs hf
      rw [Option.some.injEq] at hf
      subst hf
      exact ArgoDataFetcher.to_xarray_empty _ _ _ rfl hpp

/-- Witness for C2: in "standard" mode over the "phy" dataset, the dataset
returned by `to_xarray` has passed through the three filters in order; the
post-processor was the identity right after construction. -/
theorem C2_witness :
    demoStdState.postproccessor = PostProc.empty_processor ∧
    ArgoDataFetcher.float demoStdState "6902746" [] = MethodResult.ret demoStdBound ∧
    ArgoDataFetcher.to_xarray demoStdBound [] =
      Except.ok (XDS.filter_variables demoFetcher "standard"
        (XDS.filter_qc demoFetcher (XDS.filter_data_mode demoFetcher (XDS.raw demoFetcher [])))) := by
  have h := C2_postprocessor_chain_iff_standard_nonref demoOptions demoSources
    "standard" "" (some "") [] demoStdState rfl
  have h2 := (h.2.1 "6902746" [] demoStdBound rfl).1 ⟨rfl, by decide⟩
  exact ⟨h.1, rfl, h2.2 demoFetcher [] rfl⟩

/-- Claim C3: for every registered backend, the facade exposes 'float' and
'profile' (mapped to the backend's `Fetch_wmo`) exactly when the backend
declares the 'wmo' capability, and 'region' (mapped to `Fetch_box`) exactly
when it declares 'box'; and when 'wmo' is missing, `float` (without a cycle
keyword) and `profile` raise an access-point error whose message names the
backend's source name. -/
theorem C3_capability_mapping (OPTIONS : Options)
    (sources : List (String × BackendModule)) (mode src : String) (ds : Option String)
    (kwargs : List (String × String)) (st : ArgoDataFetcherState) (F : BackendModule)
    (hinit : ArgoDataFetcher.init OPTIONS sources mode src ds kwargs = Except.ok st)
    (hF : dictGet sources st._src = some F) :
    (dictGet st.Fetchers "float" = some CtorKind.fetch_wmo ↔
      F.access_points.contains "wmo" = true) ∧
    (dictGet st.Fetchers "profile" = some CtorKind.fetch_wmo ↔
      F.access_points.contains "wmo" = true) ∧
    (dictGet st.Fetchers "region" = some CtorKind.fetch_box ↔
      F.access_points.contains "box" = true) ∧
    (F.access_points.contains "wmo" = false →
      (∀ wmo kw, cyc_in_kw kw = false →
        ArgoDataFetcher.float st wmo kw =
          MethodResult.raised (PyError.invalidFetcherAccessPoint
            ("'float' not available with '" ++ st._src ++ "' src")) st) ∧
      (∀ wmo cyc,
        ArgoDataFetcher.profile st wmo cyc =
          MethodResult.raised (PyError.invalidFetcherAccessPoint
            ("'profile' not available with '" ++ st._src ++ "' src")) st)) := by
  obtain ⟨F2, dsv, hF2, hFe, hfe, hpp, hvap, hopt, hm, hdsid⟩ :=
    ArgoDataFetcher.init_ok_inv _ _ _ _ _ _ _ hinit
  rw [hF] at hF2
  rw [Option.some.injEq] at hF2
  subst hF2
  have hfl := buildDataFetchers_float F.access_points
  have hpr := buildDataFetchers_profile F.access_points
  have hrg := buildDataFetchers_region F.access_points
  refine ⟨?_, ?_, ?_, ?_⟩
  · rw [hFe, hfl]
    by_cases hw : F.access_points.contains "wmo" = true
    · simp [hw]
    · simp [hw]
  · rw [hFe, hpr]
    by_cases hw : F.access_points.contains "wmo" = true
    · simp [hw]
    · simp [hw]
  · rw [hFe, hrg]
    by_cases hb : F.access_points.contains "box" = true
    · simp [hb]
    · simp [hb]
  · intro hw
    have hnone : dictGet st.Fetchers "float" = none := by
      rw [hFe, hfl, hw]
      simp
    have hnonep : dictGet st.Fetchers "profile" = none := by
      rw [hFe, hpr, hw]
      simp
    constructor
    · intro wmo kw hkw
      unfold ArgoDataFetcher.float
      rw [if_neg (by simp [hkw])]
      rw [hnone]
    · intro wmo cyc
      unfold ArgoDataFetcher.profile
      rw [hnonep]

/-- Witness for C3: the box-only backend exposes only 'region', and `float`
on it raises the access-point error naming the 'boxonly' source. -/
theorem C3_witness :
    boxOnlyModule.access_points.contains "wmo" = false ∧
    ArgoDataFetcher.float demoBoxOnlyState "6902746" [] =
      MethodResult.raised (PyError.invalidFetcherAccessPoint
        "'float' not available with 'boxonly' src") demoBoxOnlyState := by
  have h := C3_capability_mapping demoOptions demoSources "" "boxonly" (some "") []
    demoBoxOnlyState boxOnlyModule rfl rfl
  exact ⟨rfl, (h.2.2.2 rfl).1 "6902746" [] rfl⟩

end Argopy
